import Mathlib

/-!
Formalization of the Nevion VideoIPath companion module's remote-state
synchronization core: the payload parsers and delta appliers
(src/videoipath/subscription.ts), the transport client's request/response
handling (src/videoipath/client.ts), the router state store
(src/videoipath/state.ts) and the command execution paths (src/main.ts).

JavaScript runtime values flowing through the parsers are modelled by the
`Json` inductive; JavaScript `Map`s keyed by arbitrary values are modelled
as association lists in insertion order with structural key equality.
-/

namespace VideoIPath

/-- A JSON/JavaScript runtime value as seen by the parsers.  Numbers are
modelled as integers (the payload fields compared by the code are ids,
revisions, event tags and small integer codes). -/
inductive Json where
  | null
  | bool (b : Bool)
  | num (n : Int)
  | str (s : String)
  | arr (elems : List Json)
  | obj (members : List (String × Json))

mutual

def Json.decEq : (a b : Json) → Decidable (a = b)
  | .null, .null => isTrue rfl
  | .bool x, .bool y =>
    if h : x = y then isTrue (by rw [h]) else isFalse (fun e => h (by injection e))
  | .num x, .num y =>
    if h : x = y then isTrue (by rw [h]) else isFalse (fun e => h (by injection e))
  | .str x, .str y =>
    if h : x = y then isTrue (by rw [h]) else isFalse (fun e => h (by injection e))
  | .arr xs, .arr ys =>
    match Json.decEqList xs ys with
    | isTrue h => isTrue (by rw [h])
    | isFalse h => isFalse (fun e => h (by injection e))
  | .obj xs, .obj ys =>
    match Json.decEqMembers xs ys with
    | isTrue h => isTrue (by rw [h])
    | isFalse h => isFalse (fun e => h (by injection e))
  | .null, .bool _ => isFalse (fun h => Json.noConfusion h)
  | .null, .num _ => isFalse (fun h => Json.noConfusion h)
  | .null, .str _ => isFalse (fun h => Json.noConfusion h)
  | .null, .arr _ => isFalse (fun h => Json.noConfusion h)
  | .null, .obj _ => isFalse (fun h => Json.noConfusion h)
  | .bool _, .null => isFalse (fun h => Json.noConfusion h)
  | .bool _, .num _ => isFalse (fun h => Json.noConfusion h)
  | .bool _, .str _ => isFalse (fun h => Json.noConfusion h)
  | .bool _, .arr _ => isFalse (fun h => Json.noConfusion h)
  | .bool _, .obj _ => isFalse (fun h => Json.noConfusion h)
  | .num _, .null => isFalse (fun h => Json.noConfusion h)
  | .num _, .bool _ => isFalse (fun h => Json.noConfusion h)
  | .num _, .str _ => isFalse (fun h => Json.noConfusion h)
  | .num _, .arr _ => isFalse (fun h => Json.noConfusion h)
  | .num _, .obj _ => isFalse (fun h => Json.noConfusion h)
  | .str _, .null => isFalse (fun h => Json.noConfusion h)
  | .str _, .bool _ => isFalse (fun h => Json.noConfusion h)
  | .str _, .num _ => isFalse (fun h => Json.noConfusion h)
  | .str _, .arr _ => isFalse (fun h => Json.noConfusion h)
  | .str _, .obj _ => isFalse (fun h => Json.noConfusion h)
  | .arr _, .null => isFalse (fun h => Json.noConfusion h)
  | .arr _, .bool _ => isFalse (fun h => Json.noConfusion h)
  | .arr _, .num _ => isFalse (fun h => Json.noConfusion h)
  | .arr _, .str _ => isFalse (fun h => Json.noConfusion h)
  | .arr _, .obj _ => isFalse (fun h => Json.noConfusion h)
  | .obj _, .null => isFalse (fun h => Json.noConfusion h)
  | .obj _, .bool _ => isFalse (fun h => Json.noConfusion h)
  | .obj _, .num _ => isFalse (fun h => Json.noConfusion h)
  | .obj _, .str _ => isFalse (fun h => Json.noConfusion h)
  | .obj _, .arr _ => isFalse (fun h => Json.noConfusion h)

def Json.decEqList : (xs ys : List Json) → Decidable (xs = ys)
  | [], [] => isTrue rfl
  | [], _ :: _ => isFalse (fun h => List.noConfusion h)
  | _ :: _, [] => isFalse (fun h => List.noConfusion h)
  | x :: xs, y :: ys =>
    match Json.decEq x y with
    | isFalse h => isFalse (fun e => h (by injection e))
    | isTrue h1 =>
      match Json.decEqList xs ys with
      | isTrue h2 => isTrue (by rw [h1, h2])
      | isFalse h2 => isFalse (fun e => h2 (by injection e))

def Json.decEqMembers : (xs ys : List (String × Json)) → Decidable (xs = ys)
  | [], [] => isTrue rfl
  | [], _ :: _ => isFalse (fun h => List.noConfusion h)
  | _ :: _, [] => isFalse (fun h => List.noConfusion h)
  | (k1, v1) :: xs, (k2, v2) :: ys =>
    if hk : k1 = k2 then
      match Json.decEq v1 v2 with
      | isFalse h => isFalse (fun e => by
          injection e with e1 e2
          exact h (congrArg Prod.snd e1))
      | isTrue hv =>
        match Json.decEqMembers xs ys with
        | isTrue ht => isTrue (by rw [hk, hv, ht])
        | isFalse h => isFalse (fun e => h (by injection e))
    else isFalse (fun e => by
      injection e with e1 e2
      exact hk (congrArg Prod.fst e1))

end

instance : DecidableEq Json := Json.decEq

instance {ε α : Type} [DecidableEq ε] [DecidableEq α] : DecidableEq (Except ε α) :=
  fun x y =>
    match x, y with
    | .ok a, .ok b =>
      if h : a = b then isTrue (by rw [h]) else isFalse (fun e => h (by injection e))
    | .error a, .error b =>
      if h : a = b then isTrue (by rw [h]) else isFalse (fun e => h (by injection e))
    | .ok _, .error _ => isFalse (fun h => Except.noConfusion h)
    | .error _, .ok _ => isFalse (fun h => Except.noConfusion h)

namespace Json

/-- JavaScript truthiness of a value. -/
def truthy : Json → Bool
  | .null => false
  | .bool b => b
  | .num n => n != 0
  | .str s => s != ""
  | .arr _ => true
  | .obj _ => true

/-- Whether the guard `value && typeof value === 'object'` passes: a non-null
object or array (`typeof null` is `'object'` but `null` is falsy). -/
def isObjLike : Json → Bool
  | .obj _ => true
  | .arr _ => true
  | _ => false

/-- Property access `v.key`: a member of an object, `undefined` (`none`)
otherwise.  Named properties of arrays and primitives are `undefined`. -/
def getProp : Json → String → Option Json
  | .obj ms, k => ms.lookup k
  | _, _ => none

/-- Entries enumerated by `Object.entries`: an object's members, an array's
elements under their stringified indices, nothing for primitives. -/
def jsEntries : Json → List (String × Json)
  | .obj ms => ms
  | .arr xs => (xs.enum).map (fun p => (toString p.1, p.2))
  | _ => []

mutual

/-- JavaScript string conversion as used by template literals. -/
def jsToString : Json → String
  | .null => "null"
  | .bool b => cond b "true" "false"
  | .num n => toString n
  | .str s => s
  | .arr xs => String.intercalate "," (jsToStringList xs)
  | .obj _ => "[object Object]"

def jsToStringList : List Json → List String
  | [] => []
  | x :: xs => jsToString x :: jsToStringList xs

end

end Json

/-- Optional chaining `v?.key` on a possibly-undefined value. -/
def jsOpt (v : Option Json) (k : String) : Option Json :=
  v.bind (fun x => x.getProp k)

/-- Nullish coalescing `v ?? dflt` where `v` may be `undefined` (`none`). -/
def jsCoalesce (v : Option Json) (dflt : Json) : Json :=
  match v with
  | some .null => dflt
  | some x => x
  | none => dflt

/-- One step `node?.key ?? node` of the defensive wrapper walk. -/
def jsWalk (node : Json) (k : String) : Json :=
  jsCoalesce (node.getProp k) node

/-- Falsiness of a possibly-undefined value (`!x` in the source). -/
def jsFalsyOpt : Option Json → Bool
  | none => true
  | some v => !v.truthy

/-- The defensive walk of `parseEndpoints` / `applyEndpointDelta` down to the
endpoint collection: `data`, `status`, `conman`, `endpoints`, each step
tolerating the wrapper being absent. -/
def walkEndpoints (data : Json) : Json :=
  jsWalk (jsWalk (jsWalk (jsWalk data "data") "status") "conman") "endpoints"

/-- The analogous walk of `parseConnections` / `applyConnectionDelta` down to
the services collection. -/
def walkServices (data : Json) : Json :=
  jsWalk (jsWalk (jsWalk (jsWalk data "data") "status") "conman") "services"

/-- An endpoint record as built by `parseEndpoints`.  Field values other than
the direction are taken verbatim from the payload (the casts in the source
are type assertions, not conversions). -/
structure Endpoint where
  id : Json
  label : Json
  endpointType : String
  specificType : Json
deriving DecidableEq

/-- A connection record as built by `parseConnections`. -/
structure Connection where
  id : Json
  rev : Json
  from_ : Json
  to_ : Json
  state : Json
  label : Json
deriving DecidableEq

/-- Association-list model of a JavaScript `Map` in insertion order. -/
abbrev JMap (α : Type) := List (Json × α)

/-- `Map.has`. -/
def mapHas {α : Type} (m : JMap α) (k : Json) : Bool :=
  m.any (fun p => p.1 == k)

/-- `Map.get`. -/
def mapGet {α : Type} (m : JMap α) (k : Json) : Option α :=
  (m.find? (fun p => p.1 == k)).map (fun p => p.2)

/-- `Map.set`: replaces the value in place when the key exists, appends
otherwise (a JavaScript `Map` never holds duplicate keys). -/
def mapSet {α : Type} : JMap α → Json → α → JMap α
  | [], k, v => [(k, v)]
  | p :: t, k, v => if p.1 == k then (p.1, v) :: t else p :: mapSet t k v

/-- `Map.delete`. -/
def mapErase {α : Type} (m : JMap α) (k : Json) : JMap α :=
  m.filter (fun p => !(p.1 == k))

/-- `Map.values` in insertion order. -/
def mapValues {α : Type} (m : JMap α) : List α :=
  m.map (fun p => p.2)

/-- Extraction of one endpoint entry: skipped (`none`) when the value is not
an object or its direction tag is not one of `In`, `Out`, `BiDirectional`;
otherwise yields the map key (`generic.id`, falling back to the raw key) and
the record. -/
def parseEndpointEntry (epId : String) (epData : Json) : Option (Json × Endpoint) :=
  if !epData.isObjLike then none
  else
    let specific := epData.getProp "specific"
    let specificType := jsCoalesce (jsOpt specific "type") (.str "unknown")
    let generic := epData.getProp "generic"
    let descriptor := jsOpt generic "descriptor"
    let label := jsCoalesce (jsOpt descriptor "label") (.str epId)
    let id := jsCoalesce (jsOpt generic "id") (.str epId)
    match jsOpt generic "endpointType" with
    | some (.str "In") => some (id, ⟨id, label, "src", specificType⟩)
    | some (.str "Out") => some (id, ⟨id, label, "dst", specificType⟩)
    | some (.str "BiDirectional") => some (id, ⟨id, label, "both", specificType⟩)
    | _ => none

/-- The accumulation loop shared by both parsers: each entry is extracted
and, when well-formed, `Map.set` into the accumulator; malformed entries
contribute nothing. -/
def parseEntryFold {α : Type} (pe : String × Json → Option (Json × α)) :
    List (String × Json) → JMap α → JMap α
  | [], m => m
  | kv :: l, m =>
    parseEntryFold pe l
      (match pe kv with
      | some q => mapSet m q.1 q.2
      | none => m)

/-- `parseEndpoints` from src/videoipath/subscription.ts. -/
def parseEndpoints (data : Json) : JMap Endpoint :=
  let node := walkEndpoints data
  if !node.isObjLike then []
  else parseEntryFold (fun kv => parseEndpointEntry kv.1 kv.2) node.jsEntries []

/-- Extraction of one service entry: skipped when the value is not an object
or when either `from` or `to` is falsy/absent. -/
def parseConnectionEntry (svcId : String) (svcData : Json) : Option (Json × Connection) :=
  if !svcData.isObjLike then none
  else
    let conn := jsWalk svcData "connection"
    let fromOpt := conn.getProp "from"
    let toOpt := conn.getProp "to"
    let id := jsCoalesce (conn.getProp "id") (.str svcId)
    let rev := jsCoalesce (conn.getProp "rev") (.str "")
    if jsFalsyOpt fromOpt || jsFalsyOpt toOpt then none
    else
      let fromV := fromOpt.getD .null
      let toV := toOpt.getD .null
      let generic := conn.getProp "generic"
      let state := jsCoalesce (jsOpt generic "state") (.str "unknown")
      let descriptor := jsOpt generic "descriptor"
      let label := jsCoalesce (jsOpt descriptor "label")
        (.str (fromV.jsToString ++ " -> " ++ toV.jsToString))
      some (id, ⟨id, rev, fromV, toV, state, label⟩)

/-- `parseConnections` from src/videoipath/subscription.ts. -/
def parseConnections (data : Json) : JMap Connection :=
  let node := walkServices data
  if !node.isObjLike then []
  else parseEntryFold (fun kv => parseConnectionEntry kv.1 kv.2) node.jsEntries []

/-- `endpointEquals` from the source: field-wise comparison. -/
def endpointEquals (a b : Endpoint) : Bool :=
  a.id == b.id && a.label == b.label && a.endpointType == b.endpointType
    && a.specificType == b.specificType

/-- `connectionEquals` from the source: field-wise comparison. -/
def connectionEquals (a b : Connection) : Bool :=
  a.id == b.id && a.rev == b.rev && a.from_ == b.from_ && a.to_ == b.to_
    && a.state == b.state && a.label == b.label

/-- One entry of the `applyEndpointDelta` loop, folded over the accumulator
`(updated, changed)`: delete-tagged (`_e = 'd'`) entries remove a key present
in `current`; update-tagged (`_e = 'e'`) entries are ignored; anything else
is re-parsed as a single-entry snapshot and merged, comparing against
`current` field-wise. -/
def endpointDeltaStep (current : JMap Endpoint) (acc : JMap Endpoint × Bool)
    (kv : String × Json) : JMap Endpoint × Bool :=
  if !kv.2.isObjLike then acc
  else
    let event := kv.2.getProp "_e"
    if event == some (.str "d") then
      if mapHas current (.str kv.1) then (mapErase acc.1 (.str kv.1), true) else acc
    else if event == some (.str "e") then acc
    else
      (parseEndpoints (.obj [kv])).foldl
        (fun acc2 p =>
          match mapGet current p.1 with
          | some existing =>
            if endpointEquals existing p.2 then acc2 else (mapSet acc2.1 p.1 p.2, true)
          | none => (mapSet acc2.1 p.1 p.2, true))
        acc

/-- `applyEndpointDelta` from src/videoipath/subscription.ts: returns the
input map itself unless the `changed` flag was set. -/
def applyEndpointDelta (current : JMap Endpoint) (delta : Json) : JMap Endpoint :=
  if !delta.isObjLike then current
  else
    let node := walkEndpoints delta
    if !node.isObjLike then current
    else
      let res := node.jsEntries.foldl (endpointDeltaStep current) (current, false)
      if res.2 then res.1 else current

/-- One entry of the `applyConnectionDelta` loop; mirrors
`endpointDeltaStep` with the connection parser and comparison. -/
def connectionDeltaStep (current : JMap Connection) (acc : JMap Connection × Bool)
    (kv : String × Json) : JMap Connection × Bool :=
  if !kv.2.isObjLike then acc
  else
    let event := kv.2.getProp "_e"
    if event == some (.str "d") then
      if mapHas current (.str kv.1) then (mapErase acc.1 (.str kv.1), true) else acc
    else if event == some (.str "e") then acc
    else
      (parseConnections (.obj [kv])).foldl
        (fun acc2 p =>
          match mapGet current p.1 with
          | some existing =>
            if connectionEquals existing p.2 then acc2 else (mapSet acc2.1 p.1 p.2, true)
          | none => (mapSet acc2.1 p.1 p.2, true))
        acc

/-- `applyConnectionDelta` from src/videoipath/subscription.ts. -/
def applyConnectionDelta (current : JMap Connection) (delta : Json) : JMap Connection :=
  if !delta.isObjLike then current
  else
    let node := walkServices delta
    if !node.isObjLike then current
    else
      let res := node.jsEntries.foldl (connectionDeltaStep current) (current, false)
      if res.2 then res.1 else current

/-- Specification-side reading of one delta entry being an actual change
against `current`: a delete of a present key, or a non-heartbeat entry whose
parsed record is absent from `current` or differs field-wise. -/
def endpointEntryEffective (current : JMap Endpoint) (kv : String × Json) : Bool :=
  if !kv.2.isObjLike then false
  else
    let event := kv.2.getProp "_e"
    if event == some (.str "d") then mapHas current (.str kv.1)
    else if event == some (.str "e") then false
    else
      (parseEndpoints (.obj [kv])).any
        (fun p =>
          match mapGet current p.1 with
          | some existing => !endpointEquals existing p.2
          | none => true)

/-- A delta payload actually adds, removes or changes at least one endpoint
entry relative to `current`. -/
def endpointDeltaEffective (current : JMap Endpoint) (delta : Json) : Bool :=
  delta.isObjLike && (walkEndpoints delta).isObjLike
    && (walkEndpoints delta).jsEntries.any (endpointEntryEffective current)

/-- Connection analogue of `endpointEntryEffective`. -/
def connectionEntryEffective (current : JMap Connection) (kv : String × Json) : Bool :=
  if !kv.2.isObjLike then false
  else
    let event := kv.2.getProp "_e"
    if event == some (.str "d") then mapHas current (.str kv.1)
    else if event == some (.str "e") then false
    else
      (parseConnections (.obj [kv])).any
        (fun p =>
          match mapGet current p.1 with
          | some existing => !connectionEquals existing p.2
          | none => true)

/-- A delta payload actually adds, removes or changes at least one connection
entry relative to `current`. -/
def connectionDeltaEffective (current : JMap Connection) (delta : Json) : Bool :=
  delta.isObjLike && (walkServices delta).isObjLike
    && (walkServices delta).jsEntries.any (connectionEntryEffective current)

/-! Transport client (src/videoipath/client.ts) -/

/-- The per-entry `result` object of a connect/disconnect response
(src/videoipath/types.ts). -/
structure EntryResult where
  ok : Bool
  code : Int
  msg : List String
deriving DecidableEq

/-- One entry of `data.entries` in a connect/disconnect response. -/
structure ConnectEntry where
  result : EntryResult
deriving DecidableEq

/-- The request-level `header` of a connect/disconnect response. -/
structure ResponseHeader where
  ok : Bool
  msg : List String
  status : String
deriving DecidableEq

/-- The `data` object of a connect/disconnect response. -/
structure ConnectData where
  entries : List ConnectEntry
deriving DecidableEq

/-- `ConnectResponse` from src/videoipath/types.ts (`DisconnectResponse` is
declared there as an alias of it). -/
structure ConnectResponse where
  header : ResponseHeader
  data : ConnectData
deriving DecidableEq

/-- `ConnectionError` from src/videoipath/errors.ts. -/
structure ConnectionError where
  message : String
  from_ : String
  to_ : String
  code : Option Int
deriving DecidableEq

/-- JavaScript `a || b` on strings (empty string is falsy). -/
def jsStrOr (a b : String) : String :=
  if a = "" then b else a

/-- The JSON request body built by `connect(from, to)`: one point-to-point
entry plus `bookingStrategy: 2` and the literal `conflictStrategy: 0`. -/
def connectRequestBody (fromId toId : String) : Json :=
  .obj
    [("header", .obj [("id", .num 0)]),
     ("data",
      .obj
        [("entries",
          .arr
            [.obj
              [("from", .str fromId),
               ("to", .str toId),
               ("profiles", .arr []),
               ("tags", .arr []),
               ("scheduleInfo",
                .obj
                  [("type", .str "once"),
                   ("startTimestamp", .null),
                   ("endTimestamp", .null)]),
               ("ctype", .str "p2p")]]),
         ("bookingStrategy", .num 2),
         ("conflictStrategy", .num 0)])]

/-- The `conflictStrategy` field of a connect request body. -/
def bodyConflictStrategy (body : Json) : Option Json :=
  jsOpt (body.getProp "data") "conflictStrategy"

/-- Response inspection of `connect` after JSON decoding: request-level
`header.ok`, then the first entry's `result.ok` when an entry is present. -/
def connectInspect (fromId toId : String) (json : ConnectResponse) :
    Except ConnectionError ConnectResponse :=
  if !json.header.ok then
    .error
      ⟨"Route failed: " ++ jsStrOr (String.intercalate ", " json.header.msg) json.header.status,
        fromId, toId, none⟩
  else
    match json.data.entries.head? with
    | some entry =>
      if !entry.result.ok then
        .error
          ⟨"Route failed: " ++ String.intercalate ", " entry.result.msg,
            fromId, toId, some entry.result.code⟩
      else .ok json
    | none => .ok json

/-- Modelled from the spec: the transport client's `disconnect(connectionId,
rev)` implementation is not among the sources available here (only its
`DisconnectResponse` type alias and its caller `executeDisconnect` in
src/main.ts are); per the spec it tears down the connection identified by
id+revision and applies the same dual-level success inspection as `connect`
(request-level `header.ok` and entry-level `result.ok`), failing with a
`ConnectionError` built from the server's reported reasons. -/
def disconnectInspect (connectionId rev : Json) (json : ConnectResponse) :
    Except ConnectionError ConnectResponse :=
  if !json.header.ok then
    .error
      ⟨"Disconnect failed: "
          ++ jsStrOr (String.intercalate ", " json.header.msg) json.header.status,
        connectionId.jsToString, rev.jsToString, none⟩
  else
    match json.data.entries.head? with
    | some entry =>
      if !entry.result.ok then
        .error
          ⟨"Disconnect failed: " ++ String.intercalate ", " entry.result.msg,
            connectionId.jsToString, rev.jsToString, some entry.result.code⟩
      else .ok json
    | none => .ok json

/-- Outcome of the HTTP exchange underlying one authenticated `get`/`post`:
either the `fetch` promise rejected, or a response arrived with a status, a
status text and a body that either decoded as JSON or failed to. -/
inductive FetchResult where
  | netError (cause : String)
  | response (status : Nat) (statusText : String) (body : Option Json)
deriving DecidableEq

/-- The error taxonomy of the authenticated request helpers
(src/videoipath/errors.ts): `ApiRequestError` carries the endpoint path and,
where available, the HTTP status and underlying cause; `SessionExpiredError`
carries only a message. -/
inductive ApiError where
  | apiRequestError (message : String) (endpoint : String) (statusCode : Option Nat)
      (hasCause : Bool)
  | sessionExpiredError (message : String)
deriving DecidableEq

/-- `get(path)` from src/videoipath/client.ts, as a function of the HTTP
exchange outcome, for an authenticated session (`response.ok` is status
200-299). -/
def getRequest (path : String) (r : FetchResult) : Except ApiError Json :=
  match r with
  | .netError cause =>
    .error (.apiRequestError ("GET request failed: " ++ cause) path none true)
  | .response status statusText body =>
    if status = 401 then
      .error (.sessionExpiredError "Session expired during GET request")
    else if !(200 ≤ status && status ≤ 299) then
      .error
        (.apiRequestError
          ("GET " ++ path ++ " returned " ++ toString status ++ " " ++ statusText)
          path (some status) false)
    else
      match body with
      | some j => .ok j
      | none =>
        .error
          (.apiRequestError ("Failed to parse JSON response from " ++ path) path none true)

/-- `post(path, body)` from src/videoipath/client.ts; identical inspection
with POST wording. -/
def postRequest (path : String) (r : FetchResult) : Except ApiError Json :=
  match r with
  | .netError cause =>
    .error (.apiRequestError ("POST request failed: " ++ cause) path none true)
  | .response status statusText body =>
    if status = 401 then
      .error (.sessionExpiredError "Session expired during POST request")
    else if !(200 ≤ status && status ≤ 299) then
      .error
        (.apiRequestError
          ("POST " ++ path ++ " returned " ++ toString status ++ " " ++ statusText)
          path (some status) false)
    else
      match body with
      | some j => .ok j
      | none =>
        .error
          (.apiRequestError ("Failed to parse JSON response from " ++ path) path none true)

/-! Retry schedule (src/videoipath/subscription.ts, `reconnectSchedule`).
The Effect combinators are modelled by their documented semantics: a
schedule is its sequence of emitted delays, `none` meaning the schedule is
exhausted and retrying stops. -/

/-- `Schedule.exponential(base, factor)`: the n-th delay (n counted from 0)
is base·factorⁿ milliseconds; the schedule recurs forever. -/
def scheduleExponential (baseMillis factor : Nat) : Nat → Option Nat :=
  fun n => some (baseMillis * factor ^ n)

/-- `Schedule.modifyDelay(f)`: applies `f` to every emitted delay. -/
def scheduleModifyDelay (f : Nat → Nat) (s : Nat → Option Nat) : Nat → Option Nat :=
  fun n => (s n).map f

/-- `Duration.min('30 seconds')` partially applied: caps a delay at the
given number of milliseconds. -/
def durationMin (capMillis : Nat) : Nat → Nat :=
  fun d => min d capMillis

/-- The pre-jitter reconnect schedule of the source:
`Schedule.exponential('1 second', 2)` piped through
`Schedule.modifyDelay(Duration.min('30 seconds'))`. -/
def reconnectScheduleBase : Nat → Option Nat :=
  scheduleModifyDelay (durationMin 30000) (scheduleExponential 1000 2)

/-- `Schedule.jittered` with the default factors 0.8-1.2: each delay `d`
becomes `d · (0.8 + 0.4·r)` for a fresh random `r ∈ [0, 1]`. -/
def jitteredDelay (d : Nat) (r : ℚ) : ℚ :=
  (d : ℚ) * (4 / 5 + 2 / 5 * r)

/-- The full reconnect schedule, parameterized by the stream of random
draws consumed by the jitter. -/
def reconnectSchedule (rand : Nat → ℚ) : Nat → Option ℚ :=
  fun n => (reconnectScheduleBase n).map (fun d => jitteredDelay d (rand n))

/-! State store and command execution (src/videoipath/state.ts, src/main.ts) -/

/-- `getConnectionForDestination(destId)` from src/videoipath/state.ts: the
linear scan over the connection map's values returning the first connection
whose `to` equals `destId`, or null. -/
def getConnectionForDestination (m : JMap Connection) (destId : String) : Option Connection :=
  (mapValues m).find? (fun conn => conn.to_ == .str destId)

/-- The client call issued by `executeDisconnect(destination)` in
src/main.ts: resolves the live connection for the destination from the
store; when none exists it fails with a descriptive `ConnectionError`
without issuing a network call, otherwise it invokes
`client.disconnect(connection.id, connection.rev)` with the resolved
connection's id and revision. -/
def executeDisconnectCall (m : JMap Connection) (destination : String) :
    Except ConnectionError (Json × Json) :=
  match getConnectionForDestination m destination with
  | none => .error ⟨"No active connection found for destination", "", destination, none⟩
  | some conn => .ok (conn.id, conn.rev)

/-- `executeDisconnect` composed with the (spec-modelled) disconnect
response inspection for the server response `resp`. -/
def executeDisconnect (m : JMap Connection) (destination : String)
    (resp : ConnectResponse) : Except ConnectionError ConnectResponse :=
  match getConnectionForDestination m destination with
  | none => .error ⟨"No active connection found for destination", "", destination, none⟩
  | some conn => disconnectInspect conn.id conn.rev resp

/-- Whether a connect/disconnect call succeeded. -/
def requestSucceeded (r : Except ConnectionError ConnectResponse) : Bool :=
  match r with
  | .ok _ => true
  | .error _ => false

/-! Helper lemmas about the map model and the defensive walk. -/

theorem mapGet_cons {α : Type} (p : Json × α) (t : JMap α) (k : Json) :
    mapGet (p :: t) k = if p.1 = k then some p.2 else mapGet t k := by
  by_cases h : p.1 = k
  · simp [mapGet, List.find?_cons, h]
  · simp [mapGet, List.find?_cons, h]

theorem mapSet_cons {α : Type} (p : Json × α) (t : JMap α) (k : Json) (v : α) :
    mapSet (p :: t) k v = if p.1 = k then (p.1, v) :: t else p :: mapSet t k v := by
  by_cases h : p.1 = k
  · simp [mapSet, h]
  · simp [mapSet, h]

theorem mapErase_cons {α : Type} (p : Json × α) (t : JMap α) (k : Json) :
    mapErase (p :: t) k = if p.1 = k then mapErase t k else p :: mapErase t k := by
  by_cases h : p.1 = k
  · simp [mapErase, List.filter_cons, h]
  · simp [mapErase, List.filter_cons, h]

theorem mapGet_set_self {α : Type} (m : JMap α) (k : Json) (v : α) :
    mapGet (mapSet m k v) k = some v := by
  induction m with
  | nil => simp [mapSet, mapGet, List.find?]
  | cons p t ih =>
    rw [mapSet_cons]
    by_cases h : p.1 = k
    · simp [h, mapGet_cons]
    · simpa [mapGet_cons, h] using ih

theorem mapGet_set_ne {α : Type} (m : JMap α) (k k' : Json) (v : α) (h : k' ≠ k) :
    mapGet (mapSet m k v) k' = mapGet m k' := by
  have hkk : k ≠ k' := Ne.symm h
  have hb : (k == k') = false := by simp [hkk]
  induction m with
  | nil => simp [mapSet, mapGet, List.find?, hb]
  | cons p t ih =>
    rw [mapSet_cons]
    by_cases hp : p.1 = k
    · have hne : p.1 ≠ k' := by rw [hp]; exact hkk
      simp [hp, mapGet_cons, hkk, hne]
    · by_cases hp2 : p.1 = k'
      · simp [hp, mapGet_cons, hp2, h]
      · simpa [mapGet_cons, hp, hp2] using ih

theorem mapErase_of_not_has {α : Type} (m : JMap α) (k : Json) (h : mapHas m k = false) :
    mapErase m k = m := by
  induction m with
  | nil => simp [mapErase]
  | cons p t ih =>
    simp only [mapHas, List.any_cons, Bool.or_eq_false_iff] at h
    have hp : p.1 ≠ k := by simpa using h.1
    rw [mapErase_cons]
    simp only [hp, if_false]
    rw [ih (by simpa [mapHas] using h.2)]

theorem mapGet_erase_ne {α : Type} (m : JMap α) (k k' : Json) (h : k' ≠ k) :
    mapGet (mapErase m k) k' = mapGet m k' := by
  induction m with
  | nil => simp [mapErase, mapGet]
  | cons p t ih =>
    rw [mapErase_cons]
    by_cases hp : p.1 = k
    · have hne : p.1 ≠ k' := by rw [hp]; exact Ne.symm h
      have hrhs : mapGet (p :: t) k' = mapGet t k' := by
        rw [mapGet_cons]
        simp [hne]
      rw [hrhs]
      simp only [hp, if_true]
      exact ih
    · by_cases hp2 : p.1 = k'
      · simp [hp, mapGet_cons, hp2, h]
      · simpa [hp, mapGet_cons, hp2] using ih

theorem jsWalk_of_getProp_none (x : Json) (w : String) (h : x.getProp w = none) :
    jsWalk x w = x := by
  simp [jsWalk, h, jsCoalesce]

theorem jsWalk_singleton (k w : String) (v : Json) (hv : v ≠ .null) :
    jsWalk (.obj [(k, v)]) w = v ∨ jsWalk (.obj [(k, v)]) w = .obj [(k, v)] := by
  by_cases h : k = w
  · subst h
    left
    cases v with
    | null => exact absurd rfl hv
    | bool b => simp [jsWalk, Json.getProp, List.lookup, jsCoalesce]
    | num n => simp [jsWalk, Json.getProp, List.lookup, jsCoalesce]
    | str s => simp [jsWalk, Json.getProp, List.lookup, jsCoalesce]
    | arr xs => simp [jsWalk, Json.getProp, List.lookup, jsCoalesce]
    | obj ms => simp [jsWalk, Json.getProp, List.lookup, jsCoalesce]
  · right
    have hwk : w ≠ k := Ne.symm h
    have hb : (w == k) = false := by simp [hwk]
    simp [jsWalk, Json.getProp, List.lookup, hb, jsCoalesce]

theorem getProp_singleton_ne (k w : String) (v : Json) (h : k ≠ w) :
    Json.getProp (.obj [(k, v)]) w = none := by
  have hb : (w == k) = false := by simp [Ne.symm h]
  simp [Json.getProp, List.lookup, hb]

/-! Helper lemmas for the change-detection contract of the delta appliers. -/

theorem endpointMergeFold_ineffective (current : JMap Endpoint) (pl : JMap Endpoint)
    (h : ∀ p ∈ pl,
      (match mapGet current p.1 with
        | some existing => !endpointEquals existing p.2
        | none => true) = false) :
    ∀ acc : JMap Endpoint × Bool,
      pl.foldl
        (fun acc2 p =>
          match mapGet current p.1 with
          | some existing =>
            if endpointEquals existing p.2 then acc2 else (mapSet acc2.1 p.1 p.2, true)
          | none => (mapSet acc2.1 p.1 p.2, true))
        acc = acc := by
  induction pl with
  | nil => intro acc; rfl
  | cons p pl ih =>
    intro acc
    have hp := h p (List.mem_cons_self p pl)
    rw [List.foldl_cons]
    cases hm : mapGet current p.1 with
    | none => rw [hm] at hp; simp at hp
    | some ex =>
      rw [hm] at hp
      simp only [Bool.not_eq_false'] at hp
      simp only [hp, if_true]
      exact ih (fun q hq => h q (List.mem_cons_of_mem p hq)) acc

theorem connectionMergeFold_ineffective (current : JMap Connection) (pl : JMap Connection)
    (h : ∀ p ∈ pl,
      (match mapGet current p.1 with
        | some existing => !connectionEquals existing p.2
        | none => true) = false) :
    ∀ acc : JMap Connection × Bool,
      pl.foldl
        (fun acc2 p =>
          match mapGet current p.1 with
          | some existing =>
            if connectionEquals existing p.2 then acc2 else (mapSet acc2.1 p.1 p.2, true)
          | none => (mapSet acc2.1 p.1 p.2, true))
        acc = acc := by
  induction pl with
  | nil => intro acc; rfl
  | cons p pl ih =>
    intro acc
    have hp := h p (List.mem_cons_self p pl)
    rw [List.foldl_cons]
    cases hm : mapGet current p.1 with
    | none => rw [hm] at hp; simp at hp
    | some ex =>
      rw [hm] at hp
      simp only [Bool.not_eq_false'] at hp
      simp only [hp, if_true]
      exact ih (fun q hq => h q (List.mem_cons_of_mem p hq)) acc

theorem endpointDeltaStep_ineffective (current : JMap Endpoint) (kv : String × Json)
    (h : endpointEntryEffective current kv = false) (acc : JMap Endpoint × Bool) :
    endpointDeltaStep current acc kv = acc := by
  unfold endpointEntryEffective at h
  unfold endpointDeltaStep
  by_cases h1 : kv.2.isObjLike
  · simp only [h1, Bool.not_true, Bool.false_eq_true, if_false] at h ⊢
    by_cases h2 : (kv.2.getProp "_e" == some (.str "d")) = true
    · simp only [h2, if_true] at h ⊢
      simp [h]
    · simp only [Bool.not_eq_true] at h2
      simp only [h2, Bool.false_eq_true, if_false] at h ⊢
      by_cases h3 : (kv.2.getProp "_e" == some (.str "e")) = true
      · simp [h3]
      · simp only [Bool.not_eq_true] at h3
        simp only [h3, Bool.false_eq_true, if_false] at h ⊢
        exact endpointMergeFold_ineffective current _
          (fun p hp => by simpa using List.any_eq_false.mp h p hp) acc
  · simp only [Bool.not_eq_true] at h1
    simp [h1]

theorem connectionDeltaStep_ineffective (current : JMap Connection) (kv : String × Json)
    (h : connectionEntryEffective current kv = false) (acc : JMap Connection × Bool) :
    connectionDeltaStep current acc kv = acc := by
  unfold connectionEntryEffective at h
  unfold connectionDeltaStep
  by_cases h1 : kv.2.isObjLike
  · simp only [h1, Bool.not_true, Bool.false_eq_true, if_false] at h ⊢
    by_cases h2 : (kv.2.getProp "_e" == some (.str "d")) = true
    · simp only [h2, if_true] at h ⊢
      simp [h]
    · simp only [Bool.not_eq_true] at h2
      simp only [h2, Bool.false_eq_true, if_false] at h ⊢
      by_cases h3 : (kv.2.getProp "_e" == some (.str "e")) = true
      · simp [h3]
      · simp only [Bool.not_eq_true] at h3
        simp only [h3, Bool.false_eq_true, if_false] at h ⊢
        exact connectionMergeFold_ineffective current _
          (fun p hp => by simpa using List.any_eq_false.mp h p hp) acc
  · simp only [Bool.not_eq_true] at h1
    simp [h1]

theorem endpointFold_ineffective (current : JMap Endpoint) (l : List (String × Json))
    (h : ∀ kv ∈ l, endpointEntryEffective current kv = false) (acc : JMap Endpoint × Bool) :
    l.foldl (endpointDeltaStep current) acc = acc := by
  induction l generalizing acc with
  | nil => rfl
  | cons kv l ih =>
    rw [List.foldl_cons,
      endpointDeltaStep_ineffective current kv (h kv (List.mem_cons_self kv l)) acc]
    exact ih (fun q hq => h q (List.mem_cons_of_mem kv hq)) acc

theorem connectionFold_ineffective (current : JMap Connection) (l : List (String × Json))
    (h : ∀ kv ∈ l, connectionEntryEffective current kv = false) (acc : JMap Connection × Bool) :
    l.foldl (connectionDeltaStep current) acc = acc := by
  induction l generalizing acc with
  | nil => rfl
  | cons kv l ih =>
    rw [List.foldl_cons,
      connectionDeltaStep_ineffective current kv (h kv (List.mem_cons_self kv l)) acc]
    exact ih (fun q hq => h q (List.mem_cons_of_mem kv hq)) acc

theorem applyEndpointDelta_ineffective (m : JMap Endpoint) (d : Json)
    (h : endpointDeltaEffective m d = false) : applyEndpointDelta m d = m := by
  unfold endpointDeltaEffective at h
  unfold applyEndpointDelta
  by_cases h1 : d.isObjLike
  · by_cases h2 : (walkEndpoints d).isObjLike
    · simp only [h1, h2, Bool.true_and] at h
      simp only [h1, h2, Bool.not_true, Bool.false_eq_true, if_false]
      rw [endpointFold_ineffective m _
        (fun kv hkv => by
          have := List.any_eq_false.mp h kv hkv
          simpa using this) (m, false)]
      rfl
    · simp only [Bool.not_eq_true] at h2
      simp [h1, h2]
  · simp only [Bool.not_eq_true] at h1
    simp [h1]

theorem walkEndpoints_singleton (k : String) (v : Json) (hv : v ≠ .null)
    (h1 : v.getProp "status" = none) (h2 : v.getProp "conman" = none)
    (h3 : v.getProp "endpoints" = none) :
    walkEndpoints (.obj [(k, v)]) = v ∨ walkEndpoints (.obj [(k, v)]) = .obj [(k, v)] := by
  have hstep : ∀ (x : Json) (w : String), v.getProp w = none →
      (x = v ∨ x = .obj [(k, v)]) → jsWalk x w = v ∨ jsWalk x w = .obj [(k, v)] := by
    intro x w hw hx
    rcases hx with hx | hx
    · rw [hx, jsWalk_of_getProp_none v w hw]
      exact Or.inl rfl
    · rw [hx]
      exact jsWalk_singleton k w v hv
  exact hstep _ "endpoints" h3 (hstep _ "conman" h2 (hstep _ "status" h1
    (jsWalk_singleton k "data" v hv)))

theorem walkServices_singleton (k : String) (v : Json) (hv : v ≠ .null)
    (h1 : v.getProp "status" = none) (h2 : v.getProp "conman" = none)
    (h3 : v.getProp "services" = none) :
    walkServices (.obj [(k, v)]) = v ∨ walkServices (.obj [(k, v)]) = .obj [(k, v)] := by
  have hstep : ∀ (x : Json) (w : String), v.getProp w = none →
      (x = v ∨ x = .obj [(k, v)]) → jsWalk x w = v ∨ jsWalk x w = .obj [(k, v)] := by
    intro x w hw hx
    rcases hx with hx | hx
    · rw [hx, jsWalk_of_getProp_none v w hw]
      exact Or.inl rfl
    · rw [hx]
      exact jsWalk_singleton k w v hv
  exact hstep _ "services" h3 (hstep _ "conman" h2 (hstep _ "status" h1
    (jsWalk_singleton k "data" v hv)))

theorem walkEndpoints_singleton_self (k : String) (v : Json) (h1 : k ≠ "data")
    (h2 : k ≠ "status") (h3 : k ≠ "conman") (h4 : k ≠ "endpoints") :
    walkEndpoints (.obj [(k, v)]) = .obj [(k, v)] := by
  unfold walkEndpoints
  rw [jsWalk_of_getProp_none _ _ (getProp_singleton_ne k "data" v h1),
    jsWalk_of_getProp_none _ _ (getProp_singleton_ne k "status" v h2),
    jsWalk_of_getProp_none _ _ (getProp_singleton_ne k "conman" v h3),
    jsWalk_of_getProp_none _ _ (getProp_singleton_ne k "endpoints" v h4)]

theorem walkServices_singleton_self (k : String) (v : Json) (h1 : k ≠ "data")
    (h2 : k ≠ "status") (h3 : k ≠ "conman") (h4 : k ≠ "services") :
    walkServices (.obj [(k, v)]) = .obj [(k, v)] := by
  unfold walkServices
  rw [jsWalk_of_getProp_none _ _ (getProp_singleton_ne k "data" v h1),
    jsWalk_of_getProp_none _ _ (getProp_singleton_ne k "status" v h2),
    jsWalk_of_getProp_none _ _ (getProp_singleton_ne k "conman" v h3),
    jsWalk_of_getProp_none _ _ (getProp_singleton_ne k "services" v h4)]

theorem applyConnectionDelta_ineffective (m : JMap Connection) (d : Json)
    (h : connectionDeltaEffective m d = false) : applyConnectionDelta m d = m := by
  unfold connectionDeltaEffective at h
  unfold applyConnectionDelta
  by_cases h1 : d.isObjLike
  · by_cases h2 : (walkServices d).isObjLike
    · simp only [h1, h2, Bool.true_and] at h
      simp only [h1, h2, Bool.not_true, Bool.false_eq_true, if_false]
      rw [connectionFold_ineffective m _
        (fun kv hkv => by
          have := List.any_eq_false.mp h kv hkv
          simpa using this) (m, false)]
      rfl
    · simp only [Bool.not_eq_true] at h2
      simp [h1, h2]
  · simp only [Bool.not_eq_true] at h1
    simp [h1]

theorem endpointDeltaEffective_heartbeat (m : JMap Endpoint) (k : String) :
    endpointDeltaEffective m (.obj [(k, .obj [("_e", .str "e")])]) = false := by
  have hw := walkEndpoints_singleton k (.obj [("_e", .str "e")])
    (fun h => Json.noConfusion h) rfl rfl rfl
  unfold endpointDeltaEffective
  rcases hw with hw | hw <;> rw [hw] <;> rfl

theorem connectionDeltaEffective_heartbeat (m : JMap Connection) (k : String) :
    connectionDeltaEffective m (.obj [(k, .obj [("_e", .str "e")])]) = false := by
  have hw := walkServices_singleton k (.obj [("_e", .str "e")])
    (fun h => Json.noConfusion h) rfl rfl rfl
  unfold connectionDeltaEffective
  rcases hw with hw | hw <;> rw [hw] <;> rfl

theorem endpointDeltaEffective_delete_absent (m : JMap Endpoint) (k : String)
    (h : mapHas m (.str k) = false) :
    endpointDeltaEffective m (.obj [(k, .obj [("_e", .str "d")])]) = false := by
  have hw := walkEndpoints_singleton k (.obj [("_e", .str "d")])
    (fun h' => Json.noConfusion h') rfl rfl rfl
  unfold endpointDeltaEffective
  rcases hw with hw | hw <;> rw [hw]
  · rfl
  · have he : endpointEntryEffective m (k, .obj [("_e", .str "d")]) = mapHas m (.str k) := rfl
    simp [Json.jsEntries, Json.isObjLike, he, h]

theorem connectionDeltaEffective_delete_absent (m : JMap Connection) (k : String)
    (h : mapHas m (.str k) = false) :
    connectionDeltaEffective m (.obj [(k, .obj [("_e", .str "d")])]) = false := by
  have hw := walkServices_singleton k (.obj [("_e", .str "d")])
    (fun h' => Json.noConfusion h') rfl rfl rfl
  unfold connectionDeltaEffective
  rcases hw with hw | hw <;> rw [hw]
  · rfl
  · have he : connectionEntryEffective m (k, .obj [("_e", .str "d")]) = mapHas m (.str k) := rfl
    simp [Json.jsEntries, Json.isObjLike, he, h]

theorem applyEndpointDelta_delete (m : JMap Endpoint) (k : String) (h1 : k ≠ "data")
    (h2 : k ≠ "status") (h3 : k ≠ "conman") (h4 : k ≠ "endpoints") :
    applyEndpointDelta m (.obj [(k, .obj [("_e", .str "d")])]) = mapErase m (.str k) := by
  unfold applyEndpointDelta
  rw [walkEndpoints_singleton_self k _ h1 h2 h3 h4]
  simp only [Json.isObjLike, Json.jsEntries, Bool.not_true, Bool.false_eq_true, if_false]
  have hstep : List.foldl (endpointDeltaStep m) (m, false) [(k, .obj [("_e", .str "d")])]
      = if mapHas m (.str k) then (mapErase m (.str k), true) else (m, false) := rfl
  by_cases hh : mapHas m (.str k)
  · rw [hstep]
    simp [hh]
  · rw [hstep]
    simp only [Bool.not_eq_true] at hh
    simp [hh, mapErase_of_not_has m (.str k) hh]

theorem parseEntryFold_cons {α : Type} (pe : String × Json → Option (Json × α))
    (kv : String × Json) (l : List (String × Json)) (m : JMap α) :
    parseEntryFold pe (kv :: l) m =
      parseEntryFold pe l
        (match pe kv with
        | some q => mapSet m q.1 q.2
        | none => m) := rfl

theorem parseEntryFold_get_of_no_id {α : Type} (pe : String × Json → Option (Json × α))
    (l : List (String × Json)) (m0 : JMap α) (id : Json)
    (h : ∀ kv ∈ l, ∀ q, pe kv = some q → q.1 ≠ id) :
    mapGet (parseEntryFold pe l m0) id = mapGet m0 id := by
  induction l generalizing m0 with
  | nil => rfl
  | cons kv l ih =>
    rw [parseEntryFold_cons]
    rw [ih _ (fun q2 hq2 => h q2 (List.mem_cons_of_mem kv hq2))]
    cases hpe : pe kv with
    | none => rfl
    | some q =>
      exact mapGet_set_ne m0 q.1 id q.2 (Ne.symm (h kv (List.mem_cons_self kv l) q hpe))

theorem parseEntryFold_get_of_mem {α : Type} (pe : String × Json → Option (Json × α))
    (l : List (String × Json)) (m0 : JMap α) (kv : String × Json) (id : Json) (v : α)
    (hmem : kv ∈ l) (hpe : pe kv = some (id, v))
    (hnd : (l.filterMap (fun kv2 => (pe kv2).map (fun q => q.1))).Nodup) :
    mapGet (parseEntryFold pe l m0) id = some v := by
  induction l generalizing m0 with
  | nil => cases hmem
  | cons kv' l ih =>
    rcases List.mem_cons.mp hmem with he | ht
    · subst he
      rw [parseEntryFold_cons]
      have hnd2 : id ∉ l.filterMap (fun kv2 => (pe kv2).map (fun q => q.1)) := by
        simp only [List.filterMap_cons, hpe, Option.map, List.nodup_cons] at hnd
        exact hnd.1
      rw [parseEntryFold_get_of_no_id pe l _ id
        (fun kv2 hkv2 q hq => by
          intro he2
          exact hnd2 (List.mem_filterMap.mpr ⟨kv2, hkv2, by rw [hq]; simpa using he2⟩))]
      simp only [hpe]
      exact mapGet_set_self m0 id v
    · have hnd2 : (l.filterMap (fun kv2 => (pe kv2).map (fun q => q.1))).Nodup := by
        cases hq : pe kv' with
        | none =>
          simpa only [List.filterMap_cons, hq, Option.map] using hnd
        | some q =>
          simp only [List.filterMap_cons, hq, Option.map, List.nodup_cons] at hnd
          exact hnd.2
      rw [parseEntryFold_cons]
      exact ih _ ht hnd2

theorem parseEntryFold_get_some {α : Type} (pe : String × Json → Option (Json × α))
    (l : List (String × Json)) (m0 : JMap α) (id : Json) (v : α)
    (h : mapGet (parseEntryFold pe l m0) id = some v) :
    (∃ kv ∈ l, pe kv = some (id, v)) ∨ mapGet m0 id = some v := by
  induction l generalizing m0 with
  | nil => exact Or.inr h
  | cons kv l ih =>
    rw [parseEntryFold_cons] at h
    rcases ih _ h with hl | hm
    · rcases hl with ⟨kv2, hkv2, hpe2⟩
      exact Or.inl ⟨kv2, List.mem_cons_of_mem kv hkv2, hpe2⟩
    · cases hpe : pe kv with
      | none =>
        simp only [hpe] at hm
        exact Or.inr hm
      | some q =>
        simp only [hpe] at hm
        by_cases hq : q.1 = id
        · subst hq
          rw [mapGet_set_self] at hm
          injection hm with hm2
          exact Or.inl ⟨kv, List.mem_cons_self kv l, by rw [hpe, ← hm2]⟩
        · rw [mapGet_set_ne m0 q.1 id q.2 (Ne.symm hq)] at hm
          exact Or.inr hm

theorem isObjLike_of_jsEntries_mem (node : Json) (kv : String × Json)
    (h : kv ∈ node.jsEntries) : node.isObjLike = true := by
  cases node <;> simp_all [Json.jsEntries, Json.isObjLike]

theorem mapValues_erase_mem {α : Type} (m : JMap α) (k : Json) (c : α)
    (h : c ∈ mapValues (mapErase m k)) : ∃ kv ∈ m, kv.2 = c ∧ kv.1 ≠ k := by
  rcases List.mem_map.mp h with ⟨kv, hkv, hc⟩
  rcases List.mem_filter.mp hkv with ⟨hm, hp⟩
  refine ⟨kv, hm, hc, ?_⟩
  simpa using hp

theorem applyConnectionDelta_delete (m : JMap Connection) (k : String) (h1 : k ≠ "data")
    (h2 : k ≠ "status") (h3 : k ≠ "conman") (h4 : k ≠ "services") :
    applyConnectionDelta m (.obj [(k, .obj [("_e", .str "d")])]) = mapErase m (.str k) := by
  unfold applyConnectionDelta
  rw [walkServices_singleton_self k _ h1 h2 h3 h4]
  simp only [Json.isObjLike, Json.jsEntries, Bool.not_true, Bool.false_eq_true, if_false]
  have hstep : List.foldl (connectionDeltaStep m) (m, false) [(k, .obj [("_e", .str "d")])]
      = if mapHas m (.str k) then (mapErase m (.str k), true) else (m, false) := rfl
  by_cases hh : mapHas m (.str k)
  · rw [hstep]
    simp [hh]
  · rw [hstep]
    simp only [Bool.not_eq_true] at hh
    simp [hh, mapErase_of_not_has m (.str k) hh]

theorem find?_eq_of_unique {α : Type} (l : List α) (p : α → Bool) (a : α)
    (ha : a ∈ l) (hpa : p a = true) (huniq : ∀ b ∈ l, p b = true → b = a) :
    l.find? p = some a := by
  induction l with
  | nil => cases ha
  | cons x l ih =>
    by_cases hx : p x = true
    · have hxa : x = a := huniq x (List.mem_cons_self x l) hx
      subst hxa
      simp [List.find?_cons, hx]
    · have hax : a ≠ x := fun e => hx (e ▸ hpa)
      have ha2 : a ∈ l := by
        rcases List.mem_cons.mp ha with he | ht
        · exact absurd he hax
        · exact ht
      simp only [Bool.not_eq_true] at hx
      rw [List.find?_cons, hx]
      exact ih ha2 (fun b hb hpb => huniq b (List.mem_cons_of_mem x hb) hpb)

/-! Claim theorems -/

/-- C1: the routing request body built by `connect` in
src/videoipath/client.ts is independent of the caller's conflict strategy
and always carries the literal `conflictStrategy: 0`; the strategy collected
by the route action (default `1`, cancel-destination) is never forwarded, so
a caller-supplied value of 1 or 2 is not the one sent to the server. -/
theorem connect_conflictStrategy_hardcoded_zero :
    (∀ fromId toId : String,
      bodyConflictStrategy (connectRequestBody fromId toId) = some (.num 0)) ∧
    (∀ fromId toId fromId2 toId2 : String,
      bodyConflictStrategy (connectRequestBody fromId toId)
        = bodyConflictStrategy (connectRequestBody fromId2 toId2)) ∧
    some (Json.num 0) ≠ some (Json.num 1) :=
  ⟨fun _ _ => rfl, fun _ _ _ _ => rfl, by decide⟩

/-- C10: a connect response whose request-level `header.ok` is true and
whose `data.entries` array is empty is reported as success: the entry-level
flag is inspected only when a first entry is present. -/
theorem connect_empty_entries_success (fromId toId : String) (resp : ConnectResponse)
    (hok : resp.header.ok = true) (hent : resp.data.entries = []) :
    connectInspect fromId toId resp = .ok resp := by
  simp [connectInspect, hok, hent]

/-- Witness for C10 at a concrete empty-entries response. -/
theorem connect_empty_entries_success_witness :
    connectInspect "srcA" "dstB" ⟨⟨true, [], "ok"⟩, ⟨[]⟩⟩
      = .ok ⟨⟨true, [], "ok"⟩, ⟨[]⟩⟩ :=
  connect_empty_entries_success "srcA" "dstB" ⟨⟨true, [], "ok"⟩, ⟨[]⟩⟩ rfl rfl

/-- C5 counterexample: a response whose `header.ok` is true and whose first
entry succeeds is reported as success even though a later entry's
`result.ok` is false, so "any entry-level result.ok flag is false" does not
force a `ConnectionError`: only the first entry is inspected. -/
theorem connect_second_entry_failure_ignored :
    connectInspect "srcA" "dstB"
        ⟨⟨true, [], "ok"⟩, ⟨[⟨⟨true, 200, []⟩⟩, ⟨⟨false, 500, ["boom"]⟩⟩]⟩⟩
      = .ok ⟨⟨true, [], "ok"⟩, ⟨[⟨⟨true, 200, []⟩⟩, ⟨⟨false, 500, ["boom"]⟩⟩]⟩⟩ ∧
    ∃ e ∈ ((⟨⟨true, [], "ok"⟩,
        ⟨[⟨⟨true, 200, []⟩⟩, ⟨⟨false, 500, ["boom"]⟩⟩]⟩⟩ : ConnectResponse)).data.entries,
      e.result.ok = false := by
  constructor
  · rfl
  · exact ⟨⟨⟨false, 500, ["boom"]⟩⟩, by decide, rfl⟩

/-- C5 (amended): `connect` fails with a `ConnectionError` carrying the
source id, the destination id and a message built from the server's
reported reasons when the request-level `header.ok` flag is false or when
the response's first entry has `result.ok` false (the entry failure also
carries the entry's error code); in particular a response with
`header.ok = true` and a first entry with `result.ok = false, code = 409`
yields a `ConnectionError` containing code 409 and both endpoint ids. -/
theorem connect_dual_level_inspection (fromId toId : String) (resp : ConnectResponse) :
    (resp.header.ok = false →
      connectInspect fromId toId resp =
        .error ⟨"Route failed: "
            ++ jsStrOr (String.intercalate ", " resp.header.msg) resp.header.status,
          fromId, toId, none⟩) ∧
    (∀ e es, resp.header.ok = true → resp.data.entries = e :: es →
      e.result.ok = false →
      connectInspect fromId toId resp =
        .error ⟨"Route failed: " ++ String.intercalate ", " e.result.msg,
          fromId, toId, some e.result.code⟩) ∧
    (∀ e es, resp.header.ok = true → resp.data.entries = e :: es →
      e.result.ok = false → e.result.code = 409 →
      ∃ msg, connectInspect fromId toId resp = .error ⟨msg, fromId, toId, some 409⟩) := by
  refine ⟨fun hok => ?_, fun e es hok hent hres => ?_, fun e es hok hent hres hcode => ?_⟩
  · simp [connectInspect, hok]
  · simp [connectInspect, hok, hent, hres]
  · exact ⟨"Route failed: " ++ String.intercalate ", " e.result.msg, by
      simp [connectInspect, hok, hent, hres, hcode]⟩

/-- Witness for C5's amended statement at the spec's 409 scenario. -/
theorem connect_dual_level_inspection_witness :
    ∃ msg, connectInspect "srcA" "dstB"
        ⟨⟨true, [], "ok"⟩, ⟨[⟨⟨false, 409, ["conflict"]⟩⟩]⟩⟩
      = .error ⟨msg, "srcA", "dstB", some 409⟩ :=
  (connect_dual_level_inspection "srcA" "dstB"
    ⟨⟨true, [], "ok"⟩, ⟨[⟨⟨false, 409, ["conflict"]⟩⟩]⟩⟩).2.2
    ⟨⟨false, 409, ["conflict"]⟩⟩ [] rfl rfl rfl rfl

/-- C6: for an authenticated session, `get` and `post` fail with
`SessionExpiredError` exactly when the HTTP status is 401; any other
non-2xx status fails with `ApiRequestError` carrying the endpoint path and
the status; a 2xx response whose body fails to decode fails with
`ApiRequestError` carrying the path and the cause; a rejected fetch fails
with `ApiRequestError` carrying the path and the cause; and a 2xx response
with valid JSON returns the decoded body. -/
theorem authenticated_request_error_classification (path statusText cause : String)
    (status : Nat) (body : Option Json) :
    ((∃ msg, getRequest path (.response status statusText body)
        = .error (.sessionExpiredError msg)) ↔ status = 401) ∧
    (∀ j, body = some j → 200 ≤ status → status ≤ 299 →
      getRequest path (.response status statusText body) = .ok j) ∧
    (status ≠ 401 → ¬(200 ≤ status ∧ status ≤ 299) →
      getRequest path (.response status statusText body) =
        .error (.apiRequestError
          ("GET " ++ path ++ " returned " ++ toString status ++ " " ++ statusText)
          path (some status) false)) ∧
    (body = none → 200 ≤ status → status ≤ 299 →
      getRequest path (.response status statusText body) =
        .error (.apiRequestError ("Failed to parse JSON response from " ++ path)
          path none true)) ∧
    (getRequest path (.netError cause) =
      .error (.apiRequestError ("GET request failed: " ++ cause) path none true)) ∧
    ((∃ msg, postRequest path (.response status statusText body)
        = .error (.sessionExpiredError msg)) ↔ status = 401) ∧
    (∀ j, body = some j → 200 ≤ status → status ≤ 299 →
      postRequest path (.response status statusText body) = .ok j) ∧
    (status ≠ 401 → ¬(200 ≤ status ∧ status ≤ 299) →
      postRequest path (.response status statusText body) =
        .error (.apiRequestError
          ("POST " ++ path ++ " returned " ++ toString status ++ " " ++ statusText)
          path (some status) false)) ∧
    (body = none → 200 ≤ status → status ≤ 299 →
      postRequest path (.response status statusText body) =
        .error (.apiRequestError ("Failed to parse JSON response from " ++ path)
          path none true)) ∧
    (postRequest path (.netError cause) =
      .error (.apiRequestError ("POST request failed: " ++ cause) path none true)) := by
  have h401 : ∀ (r : Except ApiError Json) (stx : String),
      (r = .error (.sessionExpiredError stx) →
        ∀ msg, r ≠ .error (.sessionExpiredError msg)) → True := fun _ _ _ => trivial
  refine ⟨?_, ?_, ?_, ?_, rfl, ?_, ?_, ?_, ?_, rfl⟩
  · constructor
    · rintro ⟨msg, hmsg⟩
      by_contra hne
      by_cases ha : 200 ≤ status <;> by_cases hb : status ≤ 299 <;>
        cases body <;> simp [getRequest, hne, ha, hb] at hmsg
    · intro h
      subst h
      exact ⟨"Session expired during GET request", by simp [getRequest]⟩
  · intro j hb h1 h2
    have hne : status ≠ 401 := by omega
    simp [getRequest, hne, h1, h2, hb]
  · intro hne hn2
    by_cases ha : 200 ≤ status <;> by_cases hb : status ≤ 299
    · exact absurd ⟨ha, hb⟩ hn2
    · simp [getRequest, hne, ha, hb]
    · simp [getRequest, hne, ha, hb]
    · simp [getRequest, hne, ha, hb]
  · intro hb h1 h2
    have hne : status ≠ 401 := by omega
    simp [getRequest, hne, h1, h2, hb]
  · constructor
    · rintro ⟨msg, hmsg⟩
      by_contra hne
      by_cases ha : 200 ≤ status <;> by_cases hb : status ≤ 299 <;>
        cases body <;> simp [postRequest, hne, ha, hb] at hmsg
    · intro h
      subst h
      exact ⟨"Session expired during POST request", by simp [postRequest]⟩
  · intro j hb h1 h2
    have hne : status ≠ 401 := by omega
    simp [postRequest, hne, h1, h2, hb]
  · intro hne hn2
    by_cases ha : 200 ≤ status <;> by_cases hb : status ≤ 299
    · exact absurd ⟨ha, hb⟩ hn2
    · simp [postRequest, hne, ha, hb]
    · simp [postRequest, hne, ha, hb]
    · simp [postRequest, hne, ha, hb]
  · intro hb h1 h2
    have hne : status ≠ 401 := by omega
    simp [postRequest, hne, h1, h2, hb]

/-- Witness for C6: a 401 response yields `SessionExpiredError`, a 200
response with a decoded body succeeds, a 500 response yields
`ApiRequestError` with the path and status. -/
theorem authenticated_request_error_classification_witness :
    (∃ msg, getRequest "/rest/v1/x" (.response 401 "Unauthorized" (some .null))
      = .error (.sessionExpiredError msg)) ∧
    getRequest "/rest/v1/x" (.response 200 "OK" (some (.str "payload"))) = .ok (.str "payload") ∧
    ¬(200 ≤ 500 ∧ 500 ≤ 299) ∧
    getRequest "/rest/v1/x" (.response 500 "ISE" (some .null)) =
      .error (.apiRequestError "GET /rest/v1/x returned 500 ISE" "/rest/v1/x"
        (some 500) false) :=
  ⟨(authenticated_request_error_classification "/rest/v1/x" "Unauthorized" ""
      401 (some .null)).1.mpr rfl,
    (authenticated_request_error_classification "/rest/v1/x" "OK" ""
      200 (some (.str "payload"))).2.1 (.str "payload") rfl (by norm_num) (by norm_num),
    by omega,
    (authenticated_request_error_classification "/rest/v1/x" "ISE" ""
      500 (some .null)).2.2.1 (by omega) (by omega)⟩

/-- C9: the reconnect schedule's pre-jitter delay for the n-th consecutive
failed episode (n counted from 1, attempt index n-1) is the minimum of
2^(n-1) seconds and 30 seconds; the schedule emits a delay for every
attempt index (it never exhausts, so retrying never stops); and the jitter
stage multiplies each delay by 0.8 + 0.4·r for the attempt's random draw
r ∈ [0, 1], keeping it within [0.8, 1.2] times the pre-jitter delay. -/
theorem reconnect_backoff_schedule (n : ℕ) (_hn : 1 ≤ n) (m : ℕ) (rand : ℕ → ℚ)
    (d : ℕ) (r : ℚ) (hr0 : 0 ≤ r) (hr1 : r ≤ 1) :
    reconnectScheduleBase (n - 1) = some (min (1000 * 2 ^ (n - 1)) 30000) ∧
    (reconnectSchedule rand m).isSome = true ∧
    (4 / 5 : ℚ) * d ≤ jitteredDelay d r ∧ jitteredDelay d r ≤ (6 / 5 : ℚ) * d := by
  refine ⟨rfl, rfl, ?_, ?_⟩
  · unfold jitteredDelay
    have hd : (0 : ℚ) ≤ (d : ℚ) := Nat.cast_nonneg d
    nlinarith
  · unfold jitteredDelay
    have hd : (0 : ℚ) ≤ (d : ℚ) := Nat.cast_nonneg d
    nlinarith

/-- Witness for C9: the sixth failure's pre-jitter delay is capped at 30
seconds, the schedule still emits at attempt 1000, and the jitter bounds
hold at delay 2000 ms with random draw 1/2. -/
theorem reconnect_backoff_schedule_witness :
    reconnectScheduleBase (6 - 1) = some (min (1000 * 2 ^ (6 - 1)) 30000) ∧
    (reconnectSchedule (fun _ => 1 / 2) 1000).isSome = true ∧
    (4 / 5 : ℚ) * 2000 ≤ jitteredDelay 2000 (1 / 2) ∧
    jitteredDelay 2000 (1 / 2) ≤ (6 / 5 : ℚ) * 2000 :=
  reconnect_backoff_schedule 6 (by norm_num) 1000 (fun _ => 1 / 2) 2000 (1 / 2)
    (by norm_num) (by norm_num)

/-- C2: `executeDisconnect` resolves the connection for the destination
from the store and invokes the client's `disconnect` with exactly that
connection's id and revision, failing with a descriptive `ConnectionError`
(and no client call) when none resolves; and the (spec-modelled)
`disconnect` succeeds precisely when the request-level `header.ok` flag is
true and the first entry's `result.ok` flag (when an entry is present) is
true — the same dual-level inspection as `connect`, failure being a
`ConnectionError` by the result type. -/
theorem executeDisconnect_resolution_and_inspection (store : JMap Connection)
    (dest : String) (resp : ConnectResponse) :
    (getConnectionForDestination store dest = none →
      executeDisconnect store dest resp =
        .error ⟨"No active connection found for destination", "", dest, none⟩) ∧
    (∀ conn, getConnectionForDestination store dest = some conn →
      executeDisconnectCall store dest = .ok (conn.id, conn.rev) ∧
      executeDisconnect store dest resp = disconnectInspect conn.id conn.rev resp) ∧
    (∀ cid rev : Json,
      requestSucceeded (disconnectInspect cid rev resp) = true ↔
        (resp.header.ok = true ∧
          ∀ e, resp.data.entries.head? = some e → e.result.ok = true)) ∧
    (∀ (cid rev : Json) (fromId toId : String),
      requestSucceeded (disconnectInspect cid rev resp)
        = requestSucceeded (connectInspect fromId toId resp)) := by
  refine ⟨fun h => ?_, fun conn h => ⟨?_, ?_⟩, fun cid rev => ?_, fun cid rev f t => ?_⟩
  · simp [executeDisconnect, h]
  · simp [executeDisconnectCall, h]
  · simp [executeDisconnect, h]
  · by_cases hok : resp.header.ok
    · cases hent : resp.data.entries.head? with
      | none => simp [disconnectInspect, requestSucceeded, hok, hent]
      | some e =>
        by_cases hres : e.result.ok
        · simp [disconnectInspect, requestSucceeded, hok, hent, hres]
        · simp only [Bool.not_eq_true] at hres
          simp [disconnectInspect, requestSucceeded, hok, hent, hres]
    · simp only [Bool.not_eq_true] at hok
      simp [disconnectInspect, requestSucceeded, hok]
  · by_cases hok : resp.header.ok
    · cases hent : resp.data.entries.head? with
      | none => simp [disconnectInspect, connectInspect, requestSucceeded, hok, hent]
      | some e =>
        by_cases hres : e.result.ok
        · simp [disconnectInspect, connectInspect, requestSucceeded, hok, hent, hres]
        · simp only [Bool.not_eq_true] at hres
          simp [disconnectInspect, connectInspect, requestSucceeded, hok, hent, hres]
    · simp only [Bool.not_eq_true] at hok
      simp [disconnectInspect, connectInspect, requestSucceeded, hok]

/-- Witness for C2: against a store routing `s1 -> d1` as connection `c1`
at revision `r1`, the disconnect call is issued with id `c1` and revision
`r1`, and a response with both flags true is a success. -/
theorem executeDisconnect_resolution_and_inspection_witness :
    executeDisconnectCall
        [(Json.str "c1",
          ⟨Json.str "c1", Json.str "r1", Json.str "s1", Json.str "d1",
            Json.str "connected", Json.str "L"⟩)] "d1"
      = .ok (Json.str "c1", Json.str "r1") ∧
    requestSucceeded (disconnectInspect (Json.str "c1") (Json.str "r1")
        ⟨⟨true, [], "ok"⟩, ⟨[⟨⟨true, 200, []⟩⟩]⟩⟩) = true :=
  ⟨((executeDisconnect_resolution_and_inspection
      [(Json.str "c1",
        ⟨Json.str "c1", Json.str "r1", Json.str "s1", Json.str "d1",
          Json.str "connected", Json.str "L"⟩)] "d1"
      ⟨⟨true, [], "ok"⟩, ⟨[⟨⟨true, 200, []⟩⟩]⟩⟩).2.1
      ⟨Json.str "c1", Json.str "r1", Json.str "s1", Json.str "d1",
        Json.str "connected", Json.str "L"⟩ (by decide)).1,
    ((executeDisconnect_resolution_and_inspection
      [(Json.str "c1",
        ⟨Json.str "c1", Json.str "r1", Json.str "s1", Json.str "d1",
          Json.str "connected", Json.str "L"⟩)] "d1"
      ⟨⟨true, [], "ok"⟩, ⟨[⟨⟨true, 200, []⟩⟩]⟩⟩).2.2.1
      (Json.str "c1") (Json.str "r1")).mpr ⟨rfl, by decide⟩⟩

/-- C3: a delta application returns a map distinct from the input only if
some entry was actually added, removed, or changed by field-wise comparison
(`endpointDeltaEffective` / `connectionDeltaEffective`); when no entry has
an actual effect the input map itself is returned (the model's equation
`apply = M` corresponds to the source returning the `current` reference
unchanged); in particular a heartbeat entry, a delta re-sending records
identical to the current ones (an ineffective delta), and a delete-tagged
entry for an absent key all return the input map. -/
theorem applyDelta_identity_preserving (M : JMap Endpoint) (N : JMap Connection)
    (delta : Json) (k : String) :
    (applyEndpointDelta M delta ≠ M → endpointDeltaEffective M delta = true) ∧
    (endpointDeltaEffective M delta = false → applyEndpointDelta M delta = M) ∧
    (applyConnectionDelta N delta ≠ N → connectionDeltaEffective N delta = true) ∧
    (connectionDeltaEffective N delta = false → applyConnectionDelta N delta = N) ∧
    applyEndpointDelta M (.obj [(k, .obj [("_e", .str "e")])]) = M ∧
    applyConnectionDelta N (.obj [(k, .obj [("_e", .str "e")])]) = N ∧
    (mapHas M (.str k) = false →
      applyEndpointDelta M (.obj [(k, .obj [("_e", .str "d")])]) = M) ∧
    (mapHas N (.str k) = false →
      applyConnectionDelta N (.obj [(k, .obj [("_e", .str "d")])]) = N) := by
  refine ⟨?_, applyEndpointDelta_ineffective M delta, ?_,
    applyConnectionDelta_ineffective N delta,
    applyEndpointDelta_ineffective M _ (endpointDeltaEffective_heartbeat M k),
    applyConnectionDelta_ineffective N _ (connectionDeltaEffective_heartbeat N k),
    fun h => applyEndpointDelta_ineffective M _
      (endpointDeltaEffective_delete_absent M k h),
    fun h => applyConnectionDelta_ineffective N _
      (connectionDeltaEffective_delete_absent N k h)⟩
  · intro hne
    cases he : endpointDeltaEffective M delta
    · exact absurd (applyEndpointDelta_ineffective M delta he) hne
    · rfl
  · intro hne
    cases he : connectionDeltaEffective N delta
    · exact absurd (applyConnectionDelta_ineffective N delta he) hne
    · rfl

/-- Witness for C3: re-sending the identical endpoint record is an
ineffective delta and returns the map unchanged, and a delete for an
absent connection key returns the map unchanged. -/
theorem applyDelta_identity_preserving_witness :
    endpointDeltaEffective
        [(Json.str "x", ⟨Json.str "x", Json.str "L", "src", Json.str "vertex"⟩)]
        (.obj [("x", .obj
          [("generic", .obj
            [("id", .str "x"), ("endpointType", .str "In"),
             ("descriptor", .obj [("label", .str "L")])]),
           ("specific", .obj [("type", .str "vertex")])])]) = false ∧
    applyEndpointDelta
        [(Json.str "x", ⟨Json.str "x", Json.str "L", "src", Json.str "vertex"⟩)]
        (.obj [("x", .obj
          [("generic", .obj
            [("id", .str "x"), ("endpointType", .str "In"),
             ("descriptor", .obj [("label", .str "L")])]),
           ("specific", .obj [("type", .str "vertex")])])])
      = [(Json.str "x", ⟨Json.str "x", Json.str "L", "src", Json.str "vertex"⟩)] ∧
    applyConnectionDelta
        [(Json.str "c1",
          ⟨Json.str "c1", Json.str "r1", Json.str "s1", Json.str "d1",
            Json.str "connected", Json.str "L"⟩)]
        (.obj [("zz", .obj [("_e", .str "d")])])
      = [(Json.str "c1",
          ⟨Json.str "c1", Json.str "r1", Json.str "s1", Json.str "d1",
            Json.str "connected", Json.str "L"⟩)] :=
  ⟨by decide,
    (applyDelta_identity_preserving
      [(Json.str "x", ⟨Json.str "x", Json.str "L", "src", Json.str "vertex"⟩)]
      [(Json.str "c1",
        ⟨Json.str "c1", Json.str "r1", Json.str "s1", Json.str "d1",
          Json.str "connected", Json.str "L"⟩)]
      (.obj [("x", .obj
        [("generic", .obj
          [("id", .str "x"), ("endpointType", .str "In"),
           ("descriptor", .obj [("label", .str "L")])]),
         ("specific", .obj [("type", .str "vertex")])])]) "zz").2.1 (by decide),
    (applyDelta_identity_preserving
      [(Json.str "x", ⟨Json.str "x", Json.str "L", "src", Json.str "vertex"⟩)]
      [(Json.str "c1",
        ⟨Json.str "c1", Json.str "r1", Json.str "s1", Json.str "d1",
          Json.str "connected", Json.str "L"⟩)]
      (.obj [("x", .obj
        [("generic", .obj
          [("id", .str "x"), ("endpointType", .str "In"),
           ("descriptor", .obj [("label", .str "L")])]),
         ("specific", .obj [("type", .str "vertex")])])]) "zz").2.2.2.2.2.2.2
      (by decide)⟩

/-- C4 counterexample: a delete-tagged delta entry for key `k` leaves a map
whose only key is the compound key `a:k` completely unchanged — compound
keys ending in `:k` are not removed (no such defensive removal exists in
the appliers). -/
theorem delete_compound_key_not_removed :
    applyConnectionDelta
        [(Json.str "a:k",
          ⟨Json.str "a:k", Json.str "r", Json.str "s", Json.str "d",
            Json.str "st", Json.str "L"⟩)]
        (.obj [("k", .obj [("_e", .str "d")])])
      = [(Json.str "a:k",
          ⟨Json.str "a:k", Json.str "r", Json.str "s", Json.str "d",
            Json.str "st", Json.str "L"⟩)] ∧
    mapGet
        [(Json.str "a:k",
          (⟨Json.str "a:k", Json.str "r", Json.str "s", Json.str "d",
            Json.str "st", Json.str "L"⟩ : Connection))] (Json.str "a:k")
      = some (⟨Json.str "a:k", Json.str "r", Json.str "s", Json.str "d",
          Json.str "st", Json.str "L"⟩ : Connection) := by
  constructor
  · decide
  · decide

/-- C4 (amended): a delete-tagged entry for key K (K not one of the
wrapper keys consumed by the defensive walk) removes exactly the key K
from the map when present; every other key — compound keys ending in `:K`
included — keeps its binding. -/
theorem delete_removes_exact_key (M : JMap Endpoint) (N : JMap Connection) (K : String)
    (h1 : K ≠ "data") (h2 : K ≠ "status") (h3 : K ≠ "conman") (h4 : K ≠ "endpoints")
    (h5 : K ≠ "services") :
    applyEndpointDelta M (.obj [(K, .obj [("_e", .str "d")])]) = mapErase M (.str K) ∧
    applyConnectionDelta N (.obj [(K, .obj [("_e", .str "d")])]) = mapErase N (.str K) ∧
    (∀ k', k' ≠ Json.str K →
      mapGet (applyConnectionDelta N (.obj [(K, .obj [("_e", .str "d")])])) k'
        = mapGet N k') := by
  refine ⟨applyEndpointDelta_delete M K h1 h2 h3 h4,
    applyConnectionDelta_delete N K h1 h2 h3 h5, fun k' hk' => ?_⟩
  rw [applyConnectionDelta_delete N K h1 h2 h3 h5, mapGet_erase_ne N _ _ hk']

/-- Witness for C4's amended statement: deleting key `c1` removes exactly
that binding and keeps the compound key `a:c1`. -/
theorem delete_removes_exact_key_witness :
    applyConnectionDelta
        [(Json.str "c1",
          ⟨Json.str "c1", Json.str "r", Json.str "s", Json.str "d",
            Json.str "st", Json.str "L"⟩),
         (Json.str "a:c1",
          ⟨Json.str "a:c1", Json.str "r2", Json.str "s2", Json.str "d2",
            Json.str "st2", Json.str "L2"⟩)]
        (.obj [("c1", .obj [("_e", .str "d")])])
      = mapErase
          [(Json.str "c1",
            ⟨Json.str "c1", Json.str "r", Json.str "s", Json.str "d",
              Json.str "st", Json.str "L"⟩),
           (Json.str "a:c1",
            ⟨Json.str "a:c1", Json.str "r2", Json.str "s2", Json.str "d2",
              Json.str "st2", Json.str "L2"⟩)] (Json.str "c1") ∧
    mapGet
        (applyConnectionDelta
          [(Json.str "c1",
            ⟨Json.str "c1", Json.str "r", Json.str "s", Json.str "d",
              Json.str "st", Json.str "L"⟩),
           (Json.str "a:c1",
            ⟨Json.str "a:c1", Json.str "r2", Json.str "s2", Json.str "d2",
              Json.str "st2", Json.str "L2"⟩)]
          (.obj [("c1", .obj [("_e", .str "d")])])) (Json.str "a:c1")
      = mapGet
          [(Json.str "c1",
            ⟨Json.str "c1", Json.str "r", Json.str "s", Json.str "d",
              Json.str "st", Json.str "L"⟩),
           (Json.str "a:c1",
            ⟨Json.str "a:c1", Json.str "r2", Json.str "s2", Json.str "d2",
              Json.str "st2", Json.str "L2"⟩)] (Json.str "a:c1") :=
  ⟨(delete_removes_exact_key []
      [(Json.str "c1",
        ⟨Json.str "c1", Json.str "r", Json.str "s", Json.str "d",
          Json.str "st", Json.str "L"⟩),
       (Json.str "a:c1",
        ⟨Json.str "a:c1", Json.str "r2", Json.str "s2", Json.str "d2",
          Json.str "st2", Json.str "L2"⟩)] "c1"
      (by decide) (by decide) (by decide) (by decide) (by decide)).2.1,
    (delete_removes_exact_key []
      [(Json.str "c1",
        ⟨Json.str "c1", Json.str "r", Json.str "s", Json.str "d",
          Json.str "st", Json.str "L"⟩),
       (Json.str "a:c1",
        ⟨Json.str "a:c1", Json.str "r2", Json.str "s2", Json.str "d2",
          Json.str "st2", Json.str "L2"⟩)] "c1"
      (by decide) (by decide) (by decide) (by decide) (by decide)).2.2
      (Json.str "a:c1") (by decide)⟩

/-- C7 counterexample: two structurally well-formed endpoint entries under
different raw keys can extract the same id; the resulting map then holds
only the later entry's record, so the map does not contain every
structurally well-formed entry — the later entry overrides the earlier
one. -/
theorem parse_duplicate_id_overrides :
    parseEndpointEntry "a"
        (.obj [("generic", .obj [("id", .str "x"), ("endpointType", .str "In")])])
      = some (.str "x", ⟨.str "x", .str "a", "src", .str "unknown"⟩) ∧
    ("a", Json.obj [("generic", .obj [("id", .str "x"), ("endpointType", .str "In")])])
      ∈ (walkEndpoints (.obj
          [("a", .obj [("generic", .obj
            [("id", .str "x"), ("endpointType", .str "In")])]),
           ("b", .obj [("generic", .obj
            [("id", .str "x"), ("endpointType", .str "Out")])])])).jsEntries ∧
    mapGet (parseEndpoints (.obj
        [("a", .obj [("generic", .obj
          [("id", .str "x"), ("endpointType", .str "In")])]),
         ("b", .obj [("generic", .obj
          [("id", .str "x"), ("endpointType", .str "Out")])])])) (Json.str "x")
      = some ⟨.str "x", .str "b", "dst", .str "unknown"⟩ ∧
    (⟨.str "x", .str "b", "dst", .str "unknown"⟩ : Endpoint)
      ≠ ⟨.str "x", .str "a", "src", .str "unknown"⟩ := by
  refine ⟨by decide, by decide, by decide, by decide⟩

/-- C7 (amended): the parsers are total functions of the raw input (the
model of "never throws") and return the best partial result: when the
extracted ids of the well-formed entries are pairwise distinct (ids are
unique per snapshot in the data model), every structurally well-formed
entry's record is present in the returned map under its extracted id;
conversely everything in the map comes from some well-formed entry, so
malformed entries are skipped without affecting the rest; and the delta
appliers return the current map unchanged whenever the payload or the
walked-to collection is not an object. -/
theorem parsers_best_partial_result (data : Json) :
    (((walkEndpoints data).jsEntries.filterMap
        (fun kv2 => (parseEndpointEntry kv2.1 kv2.2).map (fun q => q.1))).Nodup →
      ∀ kv ∈ (walkEndpoints data).jsEntries, ∀ id ep,
        parseEndpointEntry kv.1 kv.2 = some (id, ep) →
        mapGet (parseEndpoints data) id = some ep) ∧
    (∀ id ep, mapGet (parseEndpoints data) id = some ep →
      ∃ kv ∈ (walkEndpoints data).jsEntries,
        parseEndpointEntry kv.1 kv.2 = some (id, ep)) ∧
    (((walkServices data).jsEntries.filterMap
        (fun kv2 => (parseConnectionEntry kv2.1 kv2.2).map (fun q => q.1))).Nodup →
      ∀ kv ∈ (walkServices data).jsEntries, ∀ id c,
        parseConnectionEntry kv.1 kv.2 = some (id, c) →
        mapGet (parseConnections data) id = some c) ∧
    (∀ id c, mapGet (parseConnections data) id = some c →
      ∃ kv ∈ (walkServices data).jsEntries,
        parseConnectionEntry kv.1 kv.2 = some (id, c)) ∧
    (∀ M : JMap Endpoint, data.isObjLike = false → applyEndpointDelta M data = M) ∧
    (∀ M : JMap Endpoint, (walkEndpoints data).isObjLike = false →
      applyEndpointDelta M data = M) ∧
    (∀ N : JMap Connection, data.isObjLike = false → applyConnectionDelta N data = N) ∧
    (∀ N : JMap Connection, (walkServices data).isObjLike = false →
      applyConnectionDelta N data = N) := by
  refine ⟨fun hnd kv hkv id ep hpe => ?_, fun id ep h => ?_,
    fun hnd kv hkv id c hpe => ?_, fun id c h => ?_,
    fun M h => by simp [applyEndpointDelta, h],
    fun M h => by
      unfold applyEndpointDelta
      by_cases h1 : data.isObjLike <;> simp [h1, h],
    fun N h => by simp [applyConnectionDelta, h],
    fun N h => by
      unfold applyConnectionDelta
      by_cases h1 : data.isObjLike <;> simp [h1, h]⟩
  · have hobj := isObjLike_of_jsEntries_mem _ kv hkv
    unfold parseEndpoints
    simp only [hobj, Bool.not_true, Bool.false_eq_true, if_false]
    exact parseEntryFold_get_of_mem _ _ [] kv id ep hkv hpe hnd
  · unfold parseEndpoints at h
    by_cases hobj : (walkEndpoints data).isObjLike
    · simp only [hobj, Bool.not_true, Bool.false_eq_true, if_false] at h
      rcases parseEntryFold_get_some _ _ [] id ep h with hl | hm
      · exact hl
      · cases hm
    · simp [hobj, mapGet] at h
  · have hobj := isObjLike_of_jsEntries_mem _ kv hkv
    unfold parseConnections
    simp only [hobj, Bool.not_true, Bool.false_eq_true, if_false]
    exact parseEntryFold_get_of_mem _ _ [] kv id c hkv hpe hnd
  · unfold parseConnections at h
    by_cases hobj : (walkServices data).isObjLike
    · simp only [hobj, Bool.not_true, Bool.false_eq_true, if_false] at h
      rcases parseEntryFold_get_some _ _ [] id c h with hl | hm
      · exact hl
      · cases hm
    · simp [hobj, mapGet] at h

/-- Witness for C7's amended statement on a realistic wrapped payload: the
single well-formed entry is recovered from the parse, the malformed
entries (unrecognized direction tag, primitive value) are skipped, and a
primitive delta leaves a map unchanged. -/
theorem parsers_best_partial_result_witness :
    mapGet (parseEndpoints (.obj [("data", .obj [("status", .obj [("conman", .obj
        [("endpoints", .obj
          [("e1", .obj
            [("generic", .obj
              [("id", .str "idA"), ("endpointType", .str "In"),
               ("descriptor", .obj [("label", .str "Cam 1")])]),
             ("specific", .obj [("type", .str "vertex")])]),
           ("e2", .obj [("generic", .obj [("endpointType", .str "Weird")])]),
           ("e3", .str "junk")])])])])])) (Json.str "idA")
      = some ⟨.str "idA", .str "Cam 1", "src", .str "vertex"⟩ ∧
    applyEndpointDelta
        [(Json.str "idA", ⟨.str "idA", .str "Cam 1", "src", .str "vertex"⟩)]
        (.str "garbage")
      = [(Json.str "idA", ⟨.str "idA", .str "Cam 1", "src", .str "vertex"⟩)] :=
  ⟨(parsers_best_partial_result (.obj [("data", .obj [("status", .obj [("conman", .obj
      [("endpoints", .obj
        [("e1", .obj
          [("generic", .obj
            [("id", .str "idA"), ("endpointType", .str "In"),
             ("descriptor", .obj [("label", .str "Cam 1")])]),
           ("specific", .obj [("type", .str "vertex")])]),
         ("e2", .obj [("generic", .obj [("endpointType", .str "Weird")])]),
         ("e3", .str "junk")])])])])])).1 (by decide)
      ("e1", .obj
        [("generic", .obj
          [("id", .str "idA"), ("endpointType", .str "In"),
           ("descriptor", .obj [("label", .str "Cam 1")])]),
         ("specific", .obj [("type", .str "vertex")])]) (by decide)
      (Json.str "idA") ⟨.str "idA", .str "Cam 1", "src", .str "vertex"⟩ (by decide),
    (parsers_best_partial_result (.str "garbage")).2.2.2.2.1
      [(Json.str "idA", ⟨.str "idA", .str "Cam 1", "src", .str "vertex"⟩)] (by decide)⟩

/-- C8: `getConnectionForDestination` returns a connection whose `to`
equals the destination id whenever one exists in the map (exactly the
unique one when at most one matches), returns none exactly when no
connection's `to` matches, and after a delete-tagged delta removes the only
connection routed to that destination it returns none. -/
theorem getConnectionForDestination_spec (m : JMap Connection) (destId : String) :
    (∀ c, getConnectionForDestination m destId = some c →
      c.to_ = .str destId ∧ c ∈ mapValues m) ∧
    ((∃ c ∈ mapValues m, c.to_ = .str destId) →
      ∃ c, getConnectionForDestination m destId = some c ∧ c.to_ = .str destId) ∧
    (∀ c0, c0 ∈ mapValues m → c0.to_ = .str destId →
      (∀ c ∈ mapValues m, c.to_ = .str destId → c = c0) →
      getConnectionForDestination m destId = some c0) ∧
    (getConnectionForDestination m destId = none ↔
      ∀ c ∈ mapValues m, c.to_ ≠ .str destId) ∧
    (∀ K, K ≠ "data" → K ≠ "status" → K ≠ "conman" → K ≠ "services" →
      (∀ kv ∈ m, kv.2.to_ = .str destId → kv.1 = .str K) →
      getConnectionForDestination
        (applyConnectionDelta m (.obj [(K, .obj [("_e", .str "d")])])) destId
        = none) := by
  refine ⟨fun c hc => ?_, fun hex => ?_, fun c0 hc0 ht0 huniq => ?_, ?_,
    fun K h1 h2 h3 h4 honly => ?_⟩
  · refine ⟨?_, List.mem_of_find?_eq_some hc⟩
    have := List.find?_some hc
    simpa using this
  · rcases hex with ⟨c, hc, ht⟩
    have : ((mapValues m).find? (fun conn => conn.to_ == .str destId)).isSome := by
      rw [List.find?_isSome]
      exact ⟨c, hc, by simp [ht]⟩
    rcases Option.isSome_iff_exists.mp this with ⟨c2, hc2⟩
    refine ⟨c2, hc2, ?_⟩
    have := List.find?_some hc2
    simpa using this
  · exact find?_eq_of_unique (mapValues m) _ c0 hc0 (by simp [ht0])
      (fun b hb hpb => huniq b hb (by simpa using hpb))
  · unfold getConnectionForDestination
    rw [List.find?_eq_none]
    constructor
    · intro h c hc
      have := h c hc
      simpa using this
    · intro h c hc
      simpa using h c hc
  · rw [applyConnectionDelta_delete m K h1 h2 h3 h4]
    unfold getConnectionForDestination
    rw [List.find?_eq_none]
    intro c hc
    rcases mapValues_erase_mem m (.str K) c hc with ⟨kv, hkv, hv, hne⟩
    intro hp
    have ht : c.to_ = .str destId := by simpa using hp
    exact hne (honly kv hkv (hv ▸ ht))

/-- Witness for C8: with a single connection routed to `d1`, the lookup
finds it, `d2` finds none, and after deleting that connection's key the
lookup for `d1` finds none. -/
theorem getConnectionForDestination_spec_witness :
    getConnectionForDestination
        [(Json.str "c1",
          ⟨Json.str "c1", Json.str "r1", Json.str "s1", Json.str "d1",
            Json.str "connected", Json.str "L"⟩)] "d1"
      = some ⟨Json.str "c1", Json.str "r1", Json.str "s1", Json.str "d1",
          Json.str "connected", Json.str "L"⟩ ∧
    (getConnectionForDestination
        [(Json.str "c1",
          ⟨Json.str "c1", Json.str "r1", Json.str "s1", Json.str "d1",
            Json.str "connected", Json.str "L"⟩)] "d2" = none) ∧
    getConnectionForDestination
        (applyConnectionDelta
          [(Json.str "c1",
            ⟨Json.str "c1", Json.str "r1", Json.str "s1", Json.str "d1",
              Json.str "connected", Json.str "L"⟩)]
          (.obj [("c1", .obj [("_e", .str "d")])])) "d1"
      = none :=
  ⟨(getConnectionForDestination_spec
      [(Json.str "c1",
        ⟨Json.str "c1", Json.str "r1", Json.str "s1", Json.str "d1",
          Json.str "connected", Json.str "L"⟩)] "d1").2.2.1
      ⟨Json.str "c1", Json.str "r1", Json.str "s1", Json.str "d1",
        Json.str "connected", Json.str "L"⟩ (by decide) (by decide)
      (by decide),
    (getConnectionForDestination_spec
      [(Json.str "c1",
        ⟨Json.str "c1", Json.str "r1", Json.str "s1", Json.str "d1",
          Json.str "connected", Json.str "L"⟩)] "d2").2.2.2.1.mpr (by decide),
    (getConnectionForDestination_spec
      [(Json.str "c1",
        ⟨Json.str "c1", Json.str "r1", Json.str "s1", Json.str "d1",
          Json.str "connected", Json.str "L"⟩)] "d1").2.2.2.2 "c1"
      (by decide) (by decide) (by decide) (by decide) (by decide)⟩

end VideoIPath
